import Mathlib

/-!
Shallow embedding of the LibraryDB application (src/main.py).

The source is a single-connection SQLite program: a schema with triggers
(calculate_fine, check_event_capacity, update_participation_count) and
domain operations (borrow_item, return_item, donate_item, register_event,
volunteer_for_library, find_item).  Tables are modelled as lists of rows and
each SQL statement as an explicit state transformation.

Dates are modelled as integer day numbers: the source stores ISO date
strings and compares them with julianday, whose difference on date-only
values is always a whole number of days, so the REAL fine column only ever
holds integral values and is modelled as Int.

Statements issued through the single connection are applied to the state
immediately.  The source never calls rollback, so statements executed
before a caught sqlite3 error remain in the connection's open transaction
and are persisted by the next commit; accordingly an operation that fails
midway keeps the writes it made before the failing statement.
-/

structure Item where
  item_id : Nat
  title : String
  item_type : Option String
  author : Option String
  publisher : Option String
  publication_year : Option Int
  isbn : Option String
  available_copies : Int
  status : String
  location : String
deriving DecidableEq, Repr

structure Donation where
  donation_id : Nat
  user_id : Nat
  item_id : Nat
  donation_date : Int
  condition : String
deriving DecidableEq, Repr

structure BorrowTransaction where
  transaction_id : Nat
  user_id : Nat
  item_id : Nat
  borrow_date : Int
  due_date : Int
  return_date : Option Int
  fine : Int
deriving DecidableEq, Repr

structure Room where
  room_id : Nat
  room_name : String
  capacity : Int
deriving DecidableEq, Repr

structure Event where
  event_id : Nat
  event_name : String
  event_date : String
  event_time : Option String
  recommended_audience : Option String
  room_id : Nat
deriving DecidableEq, Repr

structure EventRegistration where
  registration_id : Nat
  user_id : Nat
  event_id : Nat
  registration_date : Int
deriving DecidableEq, Repr

structure Personnel where
  personnel_id : Nat
  first_name : String
  last_name : String
  gender : String
  birth_date : String
  email : Option String
  phone : Option String
  address : Option String
  role : String
deriving DecidableEq, Repr

structure Volunteer where
  volunteer_id : Nat
  participation_count : Int
deriving DecidableEq, Repr

structure VolunteerRegistration where
  v_registration_id : Nat
  user_id : Nat
  event_id : Nat
deriving DecidableEq, Repr

/-- The database state: one list per table touched by the claimed
operations, plus the AUTOINCREMENT counters for the tables the operations
insert into. -/
structure DB where
  items : List Item
  donations : List Donation
  borrowTransactions : List BorrowTransaction
  rooms : List Room
  events : List Event
  eventRegistrations : List EventRegistration
  personnel : List Personnel
  volunteers : List Volunteer
  volunteerRegistrations : List VolunteerRegistration
  next_item_id : Nat
  next_donation_id : Nat
  next_transaction_id : Nat
  next_registration_id : Nat
  next_v_registration_id : Nat
deriving DecidableEq, Repr

/-- The CHECK domain of Items.item_type. -/
def item_types : List String :=
  ["print_book", "online_book", "magazine", "journal", "cd", "record"]

/-- SELECT ... FROM Items WHERE item_id = ? (first row). -/
def getItem (db : DB) (iid : Nat) : Option Item :=
  db.items.find? (fun it => it.item_id == iid)

/-- SELECT ... FROM BorrowTransactions WHERE transaction_id = ? (first row). -/
def getTransaction (db : DB) (tid : Nat) : Option BorrowTransaction :=
  db.borrowTransactions.find? (fun t => t.transaction_id == tid)

/-- SELECT ... FROM Volunteers WHERE volunteer_id = ? (first row). -/
def getVolunteer (db : DB) (uid : Nat) : Option Volunteer :=
  db.volunteers.find? (fun v => v.volunteer_id == uid)

/-- Foreign-key test against Personnel(personnel_id). -/
def persExists (db : DB) (uid : Nat) : Bool :=
  db.personnel.any (fun p => p.personnel_id == uid)

/-- Foreign-key test against Events(event_id). -/
def eventExists (db : DB) (eid : Nat) : Bool :=
  db.events.any (fun e => e.event_id == eid)

/-- Trigger calculate_fine (AFTER UPDATE OF return_date ON
BorrowTransactions): WHEN NEW.return_date IS NOT NULL AND
julianday(NEW.return_date) > julianday(NEW.due_date), SET
fine = (julianday(NEW.return_date) - julianday(NEW.due_date)) * 1.0. -/
def calculate_fine (t : BorrowTransaction) : BorrowTransaction :=
  match t.return_date with
  | none => t
  | some ret =>
    if ret > t.due_date then { t with fine := (ret - t.due_date) * 1 } else t

/-- UPDATE Items SET available_copies = available_copies - 1
WHERE item_id = ?. -/
def decrementCopies (items : List Item) (iid : Nat) : List Item :=
  items.map (fun it =>
    if it.item_id == iid then
      { it with available_copies := it.available_copies - 1 }
    else it)

/-- UPDATE Items SET available_copies = available_copies + 1
WHERE item_id = ?. -/
def incrementCopies (items : List Item) (iid : Nat) : List Item :=
  items.map (fun it =>
    if it.item_id == iid then
      { it with available_copies := it.available_copies + 1 }
    else it)

/-- UPDATE Items SET status = ? WHERE item_id = ?. -/
def setStatus (items : List Item) (iid : Nat) (s : String) : List Item :=
  items.map (fun it => if it.item_id == iid then { it with status := s } else it)

/-- UPDATE BorrowTransactions SET return_date = ? WHERE transaction_id = ?,
together with the calculate_fine trigger that fires on each updated row. -/
def setReturnDate (ts : List BorrowTransaction) (tid : Nat) (ret : Int) :
    List BorrowTransaction :=
  ts.map (fun t =>
    if t.transaction_id == tid then calculate_fine { t with return_date := some ret }
    else t)

/-- Trigger update_participation_count (AFTER INSERT ON
VolunteerRegistrations): UPDATE Volunteers SET participation_count =
participation_count + 1 WHERE volunteer_id = NEW.user_id. -/
def update_participation_count (vols : List Volunteer) (uid : Nat) : List Volunteer :=
  vols.map (fun v =>
    if v.volunteer_id == uid then
      { v with participation_count := v.participation_count + 1 }
    else v)

inductive BorrowResult where
  | notFound
  | noCopiesAvailable
  | sqlError
  | success
deriving DecidableEq, Repr

/-- borrow_item(conn, user_id, item_id): checks the item and its
available_copies, inserts an open BorrowTransaction with due date 14 days
out, decrements available_copies, and sets status to borrowed when the
re-read count is not positive.  today is the value of
datetime.date.today() as a day number. -/
def borrow_item (db : DB) (user_id item_id : Nat) (today : Int) :
    BorrowResult × DB :=
  match getItem db item_id with
  | none => (.notFound, db)
  | some it =>
    if it.available_copies ≤ 0 then (.noCopiesAvailable, db)
    else
      -- INSERT INTO BorrowTransactions: the user_id foreign key must
      -- reference an existing Personnel row, else the insert raises and
      -- the except branch leaves the state as it was.
      if persExists db user_id then
        let t : BorrowTransaction :=
          { transaction_id := db.next_transaction_id, user_id := user_id,
            item_id := item_id, borrow_date := today, due_date := today + 14,
            return_date := none, fine := 0 }
        let db1 := { db with
          borrowTransactions := db.borrowTransactions ++ [t],
          next_transaction_id := db.next_transaction_id + 1 }
        let db2 := { db1 with items := decrementCopies db1.items item_id }
        -- re-read available_copies; the row was found above and updates
        -- keep it present, so the none branch is unreachable
        match getItem db2 item_id with
        | none => (.sqlError, db2)
        | some it2 =>
          if it2.available_copies ≤ 0 then
            (.success, { db2 with items := setStatus db2.items item_id "borrowed" })
          else (.success, db2)
      else (.sqlError, db)

inductive ReturnResult where
  | notFound
  | success
deriving DecidableEq, Repr

/-- return_item(conn, transaction_id, return_date): looks up the open
transaction (return_date IS NULL), sets its return_date (firing the
calculate_fine trigger), increments the item's available_copies and sets
its status back to available. -/
def return_item (db : DB) (transaction_id : Nat) (return_date : Int) :
    ReturnResult × DB :=
  match db.borrowTransactions.find?
      (fun t => t.transaction_id == transaction_id && t.return_date == none) with
  | none => (.notFound, db)
  | some row =>
    let db1 := { db with
      borrowTransactions := setReturnDate db.borrowTransactions transaction_id return_date }
    let db2 := { db1 with items := incrementCopies db1.items row.item_id }
    let db3 := { db2 with items := setStatus db2.items row.item_id "available" }
    (.success, db3)

inductive DonateResult where
  | sqlError
  | success
deriving DecidableEq, Repr

/-- donate_item(conn, user_id, title, author, publication_year, item_type,
condition, location): inserts a new Item (status donated, one copy), then a
Donations row.  If the Donations insert fails (user_id not in Personnel)
the caught error leaves the already-inserted Items row in place, since the
source performs no rollback. -/
def donate_item (db : DB) (user_id : Nat) (title : String)
    (author : Option String) (publication_year : Option Int)
    (item_type : String) (condition : String) (location : String)
    (today : Int) : DonateResult × DB :=
  -- INSERT INTO Items must satisfy CHECK(item_type IN (...))
  if item_type ∈ item_types then
    let it : Item :=
      { item_id := db.next_item_id, title := title, item_type := some item_type,
        author := author, publisher := none, publication_year := publication_year,
        isbn := none, available_copies := 1, status := "donated",
        location := location }
    let db1 := { db with items := db.items ++ [it],
                         next_item_id := db.next_item_id + 1 }
    -- INSERT INTO Donations: user_id foreign key must reference Personnel
    if persExists db1 user_id then
      let d : Donation :=
        { donation_id := db1.next_donation_id, user_id := user_id,
          item_id := it.item_id, donation_date := today, condition := condition }
      (.success, { db1 with donations := db1.donations ++ [d],
                            next_donation_id := db1.next_donation_id + 1 })
    else
      (.sqlError, db1)
  else (.sqlError, db)

/-- COUNT(*) FROM EventRegistrations WHERE event_id = ?. -/
def regCountAux (regs : List EventRegistration) (eid : Nat) : Nat :=
  (regs.filter (fun r => r.event_id == eid)).length

def regCount (db : DB) (eid : Nat) : Nat :=
  regCountAux db.eventRegistrations eid

/-- SELECT capacity FROM Rooms WHERE room_id =
(SELECT room_id FROM Events WHERE event_id = ?). -/
def eventCapacityAux (events : List Event) (rooms : List Room) (eid : Nat) :
    Option Int :=
  (events.find? (fun e => e.event_id == eid)).bind (fun e =>
    (rooms.find? (fun r => r.room_id == e.room_id)).map (fun r => r.capacity))

def eventCapacity (db : DB) (eid : Nat) : Option Int :=
  eventCapacityAux db.events db.rooms eid

/-- Trigger check_event_capacity (BEFORE INSERT ON EventRegistrations):
RAISE(ABORT) when the registration count for the event has reached the
capacity of its room; when the capacity subquery yields NULL the comparison
is NULL and no abort is raised. -/
def check_event_capacity (db : DB) (eid : Nat) : Bool :=
  match eventCapacity db eid with
  | some cap => decide ((regCount db eid : Int) ≥ cap)
  | none => false

inductive RegisterResult where
  | capacityExceeded
  | fkError
  | success
deriving DecidableEq, Repr

/-- register_event(conn, user_id, event_id): INSERT INTO
EventRegistrations; the check_event_capacity trigger may abort the insert,
and the foreign keys must reference Personnel and Events. -/
def register_event (db : DB) (user_id event_id : Nat) (today : Int) :
    RegisterResult × DB :=
  if check_event_capacity db event_id then (.capacityExceeded, db)
  else if persExists db user_id && eventExists db event_id then
    let r : EventRegistration :=
      { registration_id := db.next_registration_id, user_id := user_id,
        event_id := event_id, registration_date := today }
    (.success, { db with eventRegistrations := db.eventRegistrations ++ [r],
                         next_registration_id := db.next_registration_id + 1 })
  else (.fkError, db)

inductive VolunteerResult where
  | fkError
  | success
deriving DecidableEq, Repr

/-- volunteer_for_library(conn, user_id, event_id): INSERT INTO
VolunteerRegistrations (foreign keys to Personnel and Events), which fires
the update_participation_count trigger. -/
def volunteer_for_library (db : DB) (user_id event_id : Nat) :
    VolunteerResult × DB :=
  if persExists db user_id && eventExists db event_id then
    let r : VolunteerRegistration :=
      { v_registration_id := db.next_v_registration_id, user_id := user_id,
        event_id := event_id }
    (.success, { db with
      volunteerRegistrations := db.volunteerRegistrations ++ [r],
      volunteers := update_participation_count db.volunteers user_id,
      next_v_registration_id := db.next_v_registration_id + 1 })
  else (.fkError, db)

/-- Iterated volunteer_for_library, N calls with the same user and event. -/
def volunteerN (db : DB) (uid eid : Nat) : Nat → DB
  | 0 => db
  | n + 1 => (volunteer_for_library (volunteerN db uid eid n) uid eid).2

/-- The columns of the Items table (the allow-list a safe find_item would
validate against). -/
def item_columns : List String :=
  ["item_id", "title", "item_type", "author", "publisher",
   "publication_year", "ISBN", "available_copies", "status", "location"]

/-- find_item(conn, column, value) builds its query text by interpolating
the raw column argument: query = f-string of SELECT * FROM Items WHERE
column LIKE ?. -/
def find_item_query (column : String) : String :=
  "SELECT * FROM Items WHERE " ++ column ++ " LIKE ?"

/-- The capacity invariant: for every event, the registration count does
not exceed the capacity of the event's room (when that capacity
resolves). -/
def capacityInvAux (events : List Event) (rooms : List Room)
    (regs : List EventRegistration) : Bool :=
  events.all (fun e =>
    match eventCapacityAux events rooms e.event_id with
    | some cap => decide ((regCountAux regs e.event_id : Int) ≤ cap)
    | none => true)

def capacityInv (db : DB) : Prop :=
  capacityInvAux db.events db.rooms db.eventRegistrations = true

/-! ### Helper lemmas about keyed list updates -/

/-- Mapping a keyed conditional update over a list commutes with find? by
the same key, provided the update preserves the key. -/
theorem find_map_update {α : Type} (key : α → Nat) (k : Nat) (f : α → α)
    (hf : ∀ a, key (f a) = key a) :
    ∀ l : List α,
      ((l.map fun a => if key a == k then f a else a).find? fun a => key a == k)
        = (l.find? fun a => key a == k).map f := by
  intro l
  induction l with
  | nil => rfl
  | cons a l ih =>
    by_cases h : key a = k
    · have hb : (key a == k) = true := by simp [h]
      simp only [List.map_cons, hb, if_true]
      rw [List.find?_cons_of_pos (p := fun a => key a == k) _ (by simp [hf, h]),
        List.find?_cons_of_pos (p := fun a => key a == k) _ hb]
      rfl
    · have hb : ¬ ((key a == k) = true) := by simp [h]
      simp only [List.map_cons, if_neg hb]
      rw [List.find?_cons_of_neg (p := fun a => key a == k) _ hb,
        List.find?_cons_of_neg (p := fun a => key a == k) _ hb, ih]

/-- A keyed conditional update is the identity when no element has the
key. -/
theorem map_update_id {α : Type} (key : α → Nat) (k : Nat) (f : α → α)
    (l : List α) (h : ∀ a ∈ l, key a ≠ k) :
    (l.map fun a => if key a == k then f a else a) = l := by
  induction l with
  | nil => rfl
  | cons a l ih =>
    have ha : ¬ ((key a == k) = true) := by
      simp [h a (List.mem_cons_self a l)]
    simp only [List.map_cons, if_neg ha]
    rw [ih (fun x hx => h x (List.mem_cons_of_mem a hx))]

/-- If find? by p yields t and t also satisfies q, then find? by the
conjunction yields t as well. -/
theorem find_conj {α : Type} (p q : α → Bool) (t : α) :
    ∀ l : List α, l.find? p = some t → q t = true →
      l.find? (fun a => p a && q a) = some t := by
  intro l
  induction l with
  | nil => intro h; simp at h
  | cons a l ih =>
    intro h hq
    by_cases hp : p a = true
    · rw [List.find?_cons_of_pos _ hp] at h
      have : a = t := by injection h
      subst this
      exact List.find?_cons_of_pos _ (by simp [hp, hq])
    · rw [List.find?_cons_of_neg _ hp] at h
      rw [List.find?_cons_of_neg _ (by simp [hp]), ih h hq]

/-- find? on l ++ [x] yields x when nothing in l matches and x does. -/
theorem find_append_last {α : Type} (p : α → Bool) (x : α)
    (l : List α) (hl : ∀ a ∈ l, ¬ p a = true) (hx : p x = true) :
    (l ++ [x]).find? p = some x := by
  induction l with
  | nil => exact List.find?_cons_of_pos _ hx
  | cons a l ih =>
    rw [List.cons_append,
      List.find?_cons_of_neg _ (hl a (List.mem_cons_self a l))]
    exact ih (fun y hy => hl y (List.mem_cons_of_mem a hy))

/-- Appending one registration changes the per-event count by one exactly
for its own event. -/
theorem regCountAux_append (regs : List EventRegistration)
    (r : EventRegistration) (eid : Nat) :
    regCountAux (regs ++ [r]) eid
      = regCountAux regs eid + (if r.event_id == eid then 1 else 0) := by
  unfold regCountAux
  rw [List.filter_append, List.length_append]
  by_cases h : r.event_id = eid
  · simp [h]
  · simp [h]

/-- Specialized: find? after decrementCopies. -/
theorem find_decrementCopies (l : List Item) (iid : Nat) :
    (decrementCopies l iid).find? (fun x => x.item_id == iid)
      = (l.find? (fun x => x.item_id == iid)).map
          (fun x => { x with available_copies := x.available_copies - 1 }) :=
  find_map_update (fun x => x.item_id) iid
    (fun x => { x with available_copies := x.available_copies - 1 })
    (fun _ => rfl) l

/-- Specialized: find? after incrementCopies. -/
theorem find_incrementCopies (l : List Item) (iid : Nat) :
    (incrementCopies l iid).find? (fun x => x.item_id == iid)
      = (l.find? (fun x => x.item_id == iid)).map
          (fun x => { x with available_copies := x.available_copies + 1 }) :=
  find_map_update (fun x => x.item_id) iid
    (fun x => { x with available_copies := x.available_copies + 1 })
    (fun _ => rfl) l

/-- Specialized: find? after setStatus. -/
theorem find_setStatus (l : List Item) (iid : Nat) (s : String) :
    (setStatus l iid s).find? (fun x => x.item_id == iid)
      = (l.find? (fun x => x.item_id == iid)).map (fun x => { x with status := s }) :=
  find_map_update (fun x => x.item_id) iid (fun x => { x with status := s })
    (fun _ => rfl) l

/-- Specialized: find? after setReturnDate. -/
theorem find_setReturnDate (l : List BorrowTransaction) (tid : Nat) (ret : Int) :
    (setReturnDate l tid ret).find? (fun x => x.transaction_id == tid)
      = (l.find? (fun x => x.transaction_id == tid)).map
          (fun x => calculate_fine { x with return_date := some ret }) :=
  find_map_update (fun x => x.transaction_id) tid _
    (fun a => by
      show (calculate_fine { a with return_date := some ret }).transaction_id
          = a.transaction_id
      unfold calculate_fine
      by_cases h : ret > a.due_date <;> simp [h]) l

/-- Specialized: find? after update_participation_count. -/
theorem find_update_participation (l : List Volunteer) (uid : Nat) :
    (update_participation_count l uid).find? (fun x => x.volunteer_id == uid)
      = (l.find? (fun x => x.volunteer_id == uid)).map
          (fun x => { x with participation_count := x.participation_count + 1 }) :=
  find_map_update (fun x => x.volunteer_id) uid
    (fun x => { x with participation_count := x.participation_count + 1 })
    (fun _ => rfl) l

/-- A concrete database drawn from populate_sample_data: two items, two
persons, one volunteer row, one room at capacity with its event, one open
and one closed borrow transaction. -/
def sampleDB : DB :=
  { items := [
      { item_id := 1, title := "The Great Gatsby", item_type := some "print_book",
        author := some "F. Scott Fitzgerald", publisher := some "Scribner",
        publication_year := some 1925, isbn := some "9780743273565",
        available_copies := 3, status := "available", location := "Library Shelf" },
      { item_id := 2, title := "Classic Rock", item_type := some "record",
        author := some "Various", publisher := some "Warner Records",
        publication_year := some 1995, isbn := none,
        available_copies := 0, status := "borrowed", location := "Library Shelf" }],
    donations := [],
    borrowTransactions := [
      { transaction_id := 1, user_id := 1, item_id := 1, borrow_date := 0,
        due_date := 14, return_date := none, fine := 0 },
      { transaction_id := 2, user_id := 1, item_id := 2, borrow_date := 0,
        due_date := 14, return_date := some 20, fine := 6 }],
    rooms := [{ room_id := 3, room_name := "Small Meeting Room", capacity := 1 }],
    events := [
      { event_id := 1, event_name := "Storytime for Kids",
        event_date := "2025-04-10", event_time := some "10:00 AM",
        recommended_audience := some "children", room_id := 3 }],
    eventRegistrations := [
      { registration_id := 1, user_id := 1, event_id := 1, registration_date := 0 }],
    personnel := [
      { personnel_id := 1, first_name := "Alice", last_name := "Smith",
        gender := "F", birth_date := "1998-04-30",
        email := some "alice.smith@library.org", phone := some "123-456-7890",
        address := some "302 Happy Street", role := "Member" },
      { personnel_id := 3, first_name := "Carol", last_name := "Williams",
        gender := "Other", birth_date := "2000-01-01",
        email := some "carol.williams@library.org", phone := none,
        address := none, role := "Volunteer" }],
    volunteers := [{ volunteer_id := 3, participation_count := 0 }],
    volunteerRegistrations := [],
    next_item_id := 3, next_donation_id := 1, next_transaction_id := 3,
    next_registration_id := 2, next_v_registration_id := 1 }

/-- Claim C5: for every item row with available_copies less than or equal
to 0, borrow_item fails with NoCopiesAvailable and returns the database
unchanged, so no BorrowTransactions row is inserted and the Items table is
untouched. -/
theorem claim_C5_borrow_no_copies (db : DB) (uid iid : Nat) (today : Int)
    (it : Item) (hit : getItem db iid = some it)
    (hz : it.available_copies ≤ 0) :
    borrow_item db uid iid today = (.noCopiesAvailable, db) := by
  unfold borrow_item
  rw [hit]
  simp [hz]

theorem claim_C5_witness :
    borrow_item sampleDB 7 2 0 = (.noCopiesAvailable, sampleDB) :=
  claim_C5_borrow_no_copies sampleDB 7 2 0
    { item_id := 2, title := "Classic Rock", item_type := some "record",
      author := some "Various", publisher := some "Warner Records",
      publication_year := some 1995, isbn := none,
      available_copies := 0, status := "borrowed", location := "Library Shelf" }
    rfl (by decide)

/-- Claim C9: calling return_item on a transaction id whose row is already
closed (return_date set), or that matches no row at all, reports NotFound
and returns the database unchanged: available_copies, item status,
return_date and fine are all left as they were. -/
theorem claim_C9_return_closed (db : DB) (tid : Nat) (ret : Int)
    (h : ∀ t ∈ db.borrowTransactions, t.transaction_id = tid →
      t.return_date ≠ none) :
    return_item db tid ret = (.notFound, db) := by
  unfold return_item
  have hf : db.borrowTransactions.find?
      (fun t => t.transaction_id == tid && t.return_date == none) = none := by
    rw [List.find?_eq_none]
    intro t ht
    simp only [Bool.and_eq_true, beq_iff_eq, not_and]
    intro hid hrd
    exact h t ht hid (by simpa using hrd)
  rw [hf]

theorem claim_C9_witness :
    return_item sampleDB 2 30 = (.notFound, sampleDB) :=
  claim_C9_return_closed sampleDB 2 30 (by decide)

/-- Claim C8: the source interpolates the raw column argument into the
query text, so a string that is not an Item attribute still yields a
well-formed query (here one whose WHERE clause is a tautology) instead of
an InvalidColumn failure, and the query shape depends on the raw string
rather than only on membership in the allow-list. -/
theorem claim_C8_find_item_injection :
    find_item_query "1=1 OR title"
        = "SELECT * FROM Items WHERE 1=1 OR title LIKE ?"
    ∧ "1=1 OR title" ∉ item_columns
    ∧ find_item_query "1=1 OR title" ≠ find_item_query "publisher" :=
  ⟨by decide, by decide, by decide⟩

/-- Claim C3: donate_item is not all-or-nothing.  With a donor id absent
from Personnel the Items insert succeeds, then the Donations insert fails
its foreign key; the source catches the error without rolling back, so the
new Items row is left behind and the state differs from the pre-call
state. -/
theorem claim_C3_donate_partial_write :
    (donate_item sampleDB 99 "New Horizons" none (some 2024) "print_book"
        "good" "Donation Desk" 0).1 = .sqlError
    ∧ (donate_item sampleDB 99 "New Horizons" none (some 2024) "print_book"
        "good" "Donation Desk" 0).2.items
      = sampleDB.items ++
        [{ item_id := 3, title := "New Horizons", item_type := some "print_book",
           author := none, publisher := none, publication_year := some 2024,
           isbn := none, available_copies := 1, status := "donated",
           location := "Donation Desk" }]
    ∧ (donate_item sampleDB 99 "New Horizons" none (some 2024) "print_book"
        "good" "Donation Desk" 0).2 ≠ sampleDB :=
  ⟨by decide, by decide, by decide⟩

/-- Claim C10: volunteer_for_library succeeds for any user that exists in
Personnel (no role check), inserting the VolunteerRegistrations row; when
no Volunteers row carries that user id, the participation-count trigger
updates zero rows and the Volunteers table is unchanged. -/
theorem claim_C10_volunteer_without_row (db : DB) (uid eid : Nat)
    (hu : persExists db uid = true) (he : eventExists db eid = true)
    (hv : ∀ v ∈ db.volunteers, v.volunteer_id ≠ uid) :
    (volunteer_for_library db uid eid).1 = .success
    ∧ (volunteer_for_library db uid eid).2.volunteerRegistrations
        = db.volunteerRegistrations
          ++ [{ v_registration_id := db.next_v_registration_id,
                user_id := uid, event_id := eid }]
    ∧ (volunteer_for_library db uid eid).2.volunteers = db.volunteers := by
  unfold volunteer_for_library
  rw [hu, he]
  refine ⟨rfl, rfl, ?_⟩
  show update_participation_count db.volunteers uid = db.volunteers
  exact map_update_id (fun v => v.volunteer_id) uid
    (fun v => { v with participation_count := v.participation_count + 1 })
    db.volunteers hv

theorem claim_C10_witness :
    (volunteer_for_library sampleDB 1 1).1 = .success
    ∧ (volunteer_for_library sampleDB 1 1).2.volunteerRegistrations
        = sampleDB.volunteerRegistrations
          ++ [{ v_registration_id := 1, user_id := 1, event_id := 1 }]
    ∧ (volunteer_for_library sampleDB 1 1).2.volunteers = sampleDB.volunteers :=
  claim_C10_volunteer_without_row sampleDB 1 1 rfl rfl (by decide)

/-- Claim C1: closing an open borrow transaction with return_item sets its
return_date and, via the calculate_fine trigger, its fine becomes
(return_date - due_date) * 1 whole days when the return is strictly after
the due date, and remains 0 when the return is on or before the due date
(the transaction was open, so its fine was still the default 0). -/
theorem claim_C1_return_fine (db : DB) (tid : Nat) (ret : Int)
    (t : BorrowTransaction) (ht : getTransaction db tid = some t)
    (hopen : t.return_date = none) (hfine : t.fine = 0) :
    (return_item db tid ret).1 = .success
    ∧ getTransaction (return_item db tid ret).2 tid
        = some { t with return_date := some ret,
                        fine := if ret > t.due_date then (ret - t.due_date) * 1
                                else 0 } := by
  have ht' : db.borrowTransactions.find?
      (fun x => x.transaction_id == tid) = some t := ht
  have hconj : db.borrowTransactions.find?
      (fun x => x.transaction_id == tid && x.return_date == none) = some t :=
    find_conj (fun x => x.transaction_id == tid) (fun x => x.return_date == none)
      t db.borrowTransactions ht' (by simp [hopen])
  unfold return_item
  rw [hconj]
  refine ⟨rfl, ?_⟩
  show (setReturnDate db.borrowTransactions tid ret).find?
      (fun x => x.transaction_id == tid) = _
  rw [find_setReturnDate]
  unfold getTransaction at ht
  rw [ht]
  show some (calculate_fine { t with return_date := some ret }) = _
  unfold calculate_fine
  by_cases hl : ret > t.due_date
  · simp [hl]
  · simp only [if_neg hl]
    rw [← hfine]

theorem claim_C1_witness :
    (return_item sampleDB 1 20).1 = ReturnResult.success
    ∧ getTransaction (return_item sampleDB 1 20).2 1
        = some { transaction_id := 1, user_id := 1, item_id := 1,
                 borrow_date := 0, due_date := 14, return_date := some 20,
                 fine := if (20 : Int) > 14 then ((20 : Int) - 14) * 1 else 0 } :=
  claim_C1_return_fine sampleDB 1 20
    { transaction_id := 1, user_id := 1, item_id := 1, borrow_date := 0,
      due_date := 14, return_date := none, fine := 0 } rfl rfl rfl

/-- volunteer_for_library never changes Personnel, Events, or the next
registration counter semantics relevant to repetition: frame facts. -/
theorem volunteer_frame (db : DB) (uid eid : Nat) :
    (volunteer_for_library db uid eid).2.personnel = db.personnel
    ∧ (volunteer_for_library db uid eid).2.events = db.events := by
  unfold volunteer_for_library
  split <;> exact ⟨rfl, rfl⟩

/-- One successful volunteer registration increments the first matching
Volunteers row by exactly one. -/
theorem volunteer_step (db : DB) (uid eid : Nat) (v : Volunteer)
    (hu : persExists db uid = true) (he : eventExists db eid = true)
    (hv : getVolunteer db uid = some v) :
    (volunteer_for_library db uid eid).1 = .success
    ∧ getVolunteer (volunteer_for_library db uid eid).2 uid
        = some { v with participation_count := v.participation_count + 1 } := by
  unfold volunteer_for_library
  rw [hu, he]
  refine ⟨rfl, ?_⟩
  show (update_participation_count db.volunteers uid).find?
      (fun x => x.volunteer_id == uid) = _
  rw [find_update_participation]
  have hv' : db.volunteers.find? (fun x => x.volunteer_id == uid) = some v := hv
  rw [hv']
  rfl

/-- Iterating volunteer_for_library N times keeps the foreign keys valid
and adds N to the first matching Volunteers row's participation_count. -/
theorem volunteerN_facts (db : DB) (uid eid : Nat) (v : Volunteer)
    (hu : persExists db uid = true) (he : eventExists db eid = true)
    (hv : getVolunteer db uid = some v) :
    ∀ N : Nat,
      persExists (volunteerN db uid eid N) uid = true
      ∧ eventExists (volunteerN db uid eid N) eid = true
      ∧ getVolunteer (volunteerN db uid eid N) uid
          = some { v with participation_count := v.participation_count + N } := by
  intro N
  induction N with
  | zero =>
    refine ⟨hu, he, ?_⟩
    simpa using hv
  | succ n ih =>
    obtain ⟨h1, h2, h3⟩ := ih
    have step := volunteer_step (volunteerN db uid eid n) uid eid _ h1 h2 h3
    have frame := volunteer_frame (volunteerN db uid eid n) uid eid
    refine ⟨?_, ?_, ?_⟩
    · show persExists (volunteer_for_library (volunteerN db uid eid n) uid eid).2
          uid = true
      unfold persExists
      rw [frame.1]
      exact h1
    · show eventExists (volunteer_for_library (volunteerN db uid eid n) uid eid).2
          eid = true
      unfold eventExists
      rw [frame.2]
      exact h2
    · show getVolunteer (volunteer_for_library (volunteerN db uid eid n) uid eid).2
          uid = _
      rw [step.2]
      congr 1
      show Volunteer.mk v.volunteer_id (v.participation_count + (n : Int) + 1) = _
      have : v.participation_count + (n : Int) + 1
          = v.participation_count + ((n : Int) + 1) := by ring
      rw [this]
      push_cast
      rfl

/-- Claim C4: a successful VolunteerRegistrations insert increments the
matching Volunteers row's participation_count by exactly 1 within the same
operation, and N such insertions for the same volunteer add N to the
count (so a count starting at 0 ends at N). -/
theorem claim_C4_participation (db : DB) (uid eid : Nat) (v : Volunteer)
    (hu : persExists db uid = true) (he : eventExists db eid = true)
    (hv : getVolunteer db uid = some v) :
    (volunteer_for_library db uid eid).1 = .success
    ∧ getVolunteer (volunteer_for_library db uid eid).2 uid
        = some { v with participation_count := v.participation_count + 1 }
    ∧ ∀ N : Nat, getVolunteer (volunteerN db uid eid N) uid
        = some { v with participation_count := v.participation_count + N } :=
  ⟨(volunteer_step db uid eid v hu he hv).1,
   (volunteer_step db uid eid v hu he hv).2,
   fun N => (volunteerN_facts db uid eid v hu he hv N).2.2⟩

theorem claim_C4_witness :
    (volunteer_for_library sampleDB 3 1).1 = .success
    ∧ getVolunteer (volunteer_for_library sampleDB 3 1).2 3
        = some { volunteer_id := 3, participation_count := 0 + 1 }
    ∧ getVolunteer (volunteerN sampleDB 3 1 4) 3
        = some { volunteer_id := 3, participation_count := 0 + (4 : Nat) } :=
  ⟨(claim_C4_participation sampleDB 3 1 ⟨3, 0⟩ rfl rfl rfl).1,
   (claim_C4_participation sampleDB 3 1 ⟨3, 0⟩ rfl rfl rfl).2.1,
   (claim_C4_participation sampleDB 3 1 ⟨3, 0⟩ rfl rfl rfl).2.2 4⟩

/-- The full effect of a successful borrow_item: one open transaction row
appended, available_copies decremented, status set to borrowed exactly
when the decremented count is not positive. -/
theorem borrow_item_success_spec (db : DB) (uid iid : Nat) (today : Int)
    (it : Item) (hit : getItem db iid = some it)
    (hpos : 0 < it.available_copies) (hu : persExists db uid = true) :
    borrow_item db uid iid today
      = (.success,
         { db with
           items :=
             if it.available_copies - 1 ≤ 0 then
               setStatus (decrementCopies db.items iid) iid "borrowed"
             else decrementCopies db.items iid,
           borrowTransactions := db.borrowTransactions ++
             [{ transaction_id := db.next_transaction_id, user_id := uid,
                item_id := iid, borrow_date := today, due_date := today + 14,
                return_date := none, fine := 0 }],
           next_transaction_id := db.next_transaction_id + 1 }) := by
  have hle : ¬ it.available_copies ≤ 0 := by omega
  have hdec : (decrementCopies db.items iid).find? (fun x => x.item_id == iid)
      = some { it with available_copies := it.available_copies - 1 } := by
    rw [find_decrementCopies]
    have hit' : db.items.find? (fun x => x.item_id == iid) = some it := hit
    rw [hit']
    rfl
  unfold borrow_item
  rw [hit]
  simp only [if_neg hle, hu, eq_self_iff_true, if_true, getItem]
  rw [hdec]
  by_cases hz : it.available_copies - 1 ≤ 0
  · simp only [hz, if_pos, if_true]
  · simp only [hz, if_neg, if_false]

/-- The full effect of a successful return_item: return_date set (with the
fine trigger applied), the item's copies incremented and its status set to
available. -/
theorem return_item_success_spec (db : DB) (tid : Nat) (ret : Int)
    (row : BorrowTransaction)
    (hfind : db.borrowTransactions.find?
        (fun x => x.transaction_id == tid && x.return_date == none) = some row) :
    return_item db tid ret
      = (.success,
         { db with
           borrowTransactions := setReturnDate db.borrowTransactions tid ret,
           items := setStatus (incrementCopies db.items row.item_id)
                      row.item_id "available" }) := by
  unfold return_item
  rw [hfind]

/-- After a successful borrow of an item with available_copies = c, the
first matching Items row has available_copies = c - 1 and status borrowed
exactly when c - 1 is not positive. -/
theorem borrow_items_find (db : DB) (iid : Nat) (it : Item)
    (hit : getItem db iid = some it) :
    ((if it.available_copies - 1 ≤ 0 then
        setStatus (decrementCopies db.items iid) iid "borrowed"
      else decrementCopies db.items iid).find? (fun x => x.item_id == iid))
      = some { it with
               available_copies := it.available_copies - 1,
               status := if it.available_copies - 1 ≤ 0 then "borrowed"
                         else it.status } := by
  have hdec : (decrementCopies db.items iid).find? (fun x => x.item_id == iid)
      = some { it with available_copies := it.available_copies - 1 } := by
    rw [find_decrementCopies]
    have hit' : db.items.find? (fun x => x.item_id == iid) = some it := hit
    rw [hit']
    rfl
  by_cases hz : it.available_copies - 1 ≤ 0
  · rw [if_pos hz, find_setStatus, hdec]
    simp only [if_pos hz]
    rfl
  · rw [if_neg hz, hdec]
    simp only [if_neg hz]

/-- Claim C7: a successful borrow_item appends exactly one open
BorrowTransactions row (borrow_date today, due_date today plus 14 days,
return_date NULL, fine 0), decrements the item's available_copies by 1,
and sets the item's status to borrowed exactly when the count reaches 0
(leaving status untouched otherwise). -/
theorem claim_C7_borrow_success (db : DB) (uid iid : Nat) (today : Int)
    (it : Item) (hit : getItem db iid = some it)
    (hpos : 0 < it.available_copies) (hu : persExists db uid = true) :
    (borrow_item db uid iid today).1 = .success
    ∧ (borrow_item db uid iid today).2.borrowTransactions
        = db.borrowTransactions ++
          [{ transaction_id := db.next_transaction_id, user_id := uid,
             item_id := iid, borrow_date := today, due_date := today + 14,
             return_date := none, fine := 0 }]
    ∧ getItem (borrow_item db uid iid today).2 iid
        = some { it with
                 available_copies := it.available_copies - 1,
                 status := if it.available_copies - 1 ≤ 0 then "borrowed"
                           else it.status } := by
  rw [borrow_item_success_spec db uid iid today it hit hpos hu]
  exact ⟨rfl, rfl, borrow_items_find db iid it hit⟩

theorem claim_C7_witness :
    (borrow_item sampleDB 1 1 100).1 = .success
    ∧ (borrow_item sampleDB 1 1 100).2.borrowTransactions
        = sampleDB.borrowTransactions ++
          [{ transaction_id := 3, user_id := 1, item_id := 1,
             borrow_date := 100, due_date := 100 + 14,
             return_date := none, fine := 0 }]
    ∧ getItem (borrow_item sampleDB 1 1 100).2 1
        = some { item_id := 1, title := "The Great Gatsby",
                 item_type := some "print_book",
                 author := some "F. Scott Fitzgerald",
                 publisher := some "Scribner", publication_year := some 1925,
                 isbn := some "9780743273565", available_copies := 3 - 1,
                 status := if (3 : Int) - 1 ≤ 0 then "borrowed"
                           else "available",
                 location := "Library Shelf" } :=
  claim_C7_borrow_success sampleDB 1 1 100
    { item_id := 1, title := "The Great Gatsby", item_type := some "print_book",
      author := some "F. Scott Fitzgerald", publisher := some "Scribner",
      publication_year := some 1925, isbn := some "9780743273565",
      available_copies := 3, status := "available",
      location := "Library Shelf" }
    rfl (by decide) rfl

/-- Claim C6: for an existing item with available copies and a valid
person, borrow_item immediately followed by return_item on the transaction
it created restores the item's available_copies to its pre-borrow value. -/
theorem claim_C6_roundtrip (db : DB) (uid iid : Nat) (today ret : Int)
    (it : Item) (hit : getItem db iid = some it)
    (hpos : 0 < it.available_copies) (hu : persExists db uid = true)
    (hfresh : ∀ t ∈ db.borrowTransactions,
      t.transaction_id ≠ db.next_transaction_id) :
    ∃ it2 : Item,
      (borrow_item db uid iid today).1 = .success
      ∧ (return_item (borrow_item db uid iid today).2
            db.next_transaction_id ret).1 = .success
      ∧ getItem (return_item (borrow_item db uid iid today).2
            db.next_transaction_id ret).2 iid = some it2
      ∧ it2.available_copies = it.available_copies := by
  have hspec := borrow_item_success_spec db uid iid today it hit hpos hu
  have hfind : (borrow_item db uid iid today).2.borrowTransactions.find?
      (fun x => x.transaction_id == db.next_transaction_id
        && x.return_date == none)
      = some { transaction_id := db.next_transaction_id, user_id := uid,
               item_id := iid, borrow_date := today, due_date := today + 14,
               return_date := none, fine := 0 } := by
    rw [hspec]
    exact find_append_last _ _ db.borrowTransactions
      (fun a ha => by
        simp only [Bool.and_eq_true, beq_iff_eq]
        exact fun hcon => hfresh a ha hcon.1)
      (by simp)
  have hret := return_item_success_spec (borrow_item db uid iid today).2
      db.next_transaction_id ret _ hfind
  have hitems : (borrow_item db uid iid today).2.items.find?
      (fun x => x.item_id == iid)
      = some { it with
               available_copies := it.available_copies - 1,
               status := if it.available_copies - 1 ≤ 0 then "borrowed"
                         else it.status } := by
    rw [hspec]
    exact borrow_items_find db iid it hit
  refine ⟨{ it with available_copies := it.available_copies - 1 + 1,
                    status := "available" }, ?_, ?_, ?_, ?_⟩
  · rw [hspec]
  · rw [hret]
  · rw [hret]
    show (setStatus (incrementCopies (borrow_item db uid iid today).2.items iid)
        iid "available").find? (fun x => x.item_id == iid) = _
    rw [find_setStatus, find_incrementCopies, hitems]
    rfl
  · show it.available_copies - 1 + 1 = it.available_copies
    omega

theorem claim_C6_witness :
    ∃ it2 : Item,
      (borrow_item sampleDB 1 1 100).1 = .success
      ∧ (return_item (borrow_item sampleDB 1 1 100).2 3 120).1 = .success
      ∧ getItem (return_item (borrow_item sampleDB 1 1 100).2 3 120).2 1
          = some it2
      ∧ it2.available_copies
        = ({ item_id := 1, title := "The Great Gatsby",
             item_type := some "print_book",
             author := some "F. Scott Fitzgerald",
             publisher := some "Scribner", publication_year := some 1925,
             isbn := some "9780743273565", available_copies := 3,
             status := "available", location := "Library Shelf" } : Item
          ).available_copies :=
  claim_C6_roundtrip sampleDB 1 1 100 120
    { item_id := 1, title := "The Great Gatsby", item_type := some "print_book",
      author := some "F. Scott Fitzgerald", publisher := some "Scribner",
      publication_year := some 1925, isbn := some "9780743273565",
      available_copies := 3, status := "available",
      location := "Library Shelf" }
    rfl (by decide) rfl (by decide)

/-- borrow_item never touches Events, Rooms, or EventRegistrations. -/
theorem borrow_item_capacity_frame (db : DB) (uid iid : Nat) (today : Int) :
    (borrow_item db uid iid today).2.events = db.events
    ∧ (borrow_item db uid iid today).2.rooms = db.rooms
    ∧ (borrow_item db uid iid today).2.eventRegistrations
        = db.eventRegistrations := by
  unfold borrow_item
  dsimp only
  repeat' split
  all_goals exact ⟨rfl, rfl, rfl⟩

/-- return_item never touches Events, Rooms, or EventRegistrations. -/
theorem return_item_capacity_frame (db : DB) (tid : Nat) (ret : Int) :
    (return_item db tid ret).2.events = db.events
    ∧ (return_item db tid ret).2.rooms = db.rooms
    ∧ (return_item db tid ret).2.eventRegistrations = db.eventRegistrations := by
  unfold return_item
  dsimp only
  repeat' split
  all_goals exact ⟨rfl, rfl, rfl⟩

/-- donate_item never touches Events, Rooms, or EventRegistrations. -/
theorem donate_item_capacity_frame (db : DB) (uid : Nat) (title : String)
    (author : Option String) (year : Option Int) (itype cond loc : String)
    (today : Int) :
    (donate_item db uid title author year itype cond loc today).2.events
        = db.events
    ∧ (donate_item db uid title author year itype cond loc today).2.rooms
        = db.rooms
    ∧ (donate_item db uid title author year itype cond loc
        today).2.eventRegistrations = db.eventRegistrations := by
  unfold donate_item
  dsimp only
  repeat' split
  all_goals exact ⟨rfl, rfl, rfl⟩

/-- volunteer_for_library never touches Events, Rooms, or
EventRegistrations. -/
theorem volunteer_capacity_frame (db : DB) (uid eid : Nat) :
    (volunteer_for_library db uid eid).2.events = db.events
    ∧ (volunteer_for_library db uid eid).2.rooms = db.rooms
    ∧ (volunteer_for_library db uid eid).2.eventRegistrations
        = db.eventRegistrations := by
  unfold volunteer_for_library
  split
  all_goals exact ⟨rfl, rfl, rfl⟩

/-- capacityInv only depends on Events, Rooms and EventRegistrations. -/
theorem capacityInv_of_eq (d1 d2 : DB) (he : d1.events = d2.events)
    (hr : d1.rooms = d2.rooms)
    (hg : d1.eventRegistrations = d2.eventRegistrations)
    (h : capacityInv d2) : capacityInv d1 := by
  unfold capacityInv
  rw [he, hr, hg]
  exact h

/-- register_event preserves the capacity invariant: the trigger aborts a
registration at capacity, and a successful insert had strictly fewer
registrations than the room capacity. -/
theorem register_event_preserves (db : DB) (uid eid : Nat) (today : Int)
    (h : capacityInv db) : capacityInv (register_event db uid eid today).2 := by
  unfold register_event
  split
  · exact h
  · split
    · rename_i hcheck hfk
      show capacityInvAux db.events db.rooms
          (db.eventRegistrations ++
            [{ registration_id := db.next_registration_id, user_id := uid,
               event_id := eid, registration_date := today }]) = true
      unfold capacityInv capacityInvAux at h
      unfold capacityInvAux
      rw [List.all_eq_true] at h ⊢
      intro e he'
      have hinv := h e he'
      simp only at hinv ⊢
      cases hc : eventCapacityAux db.events db.rooms e.event_id with
      | none => rfl
      | some cap =>
        rw [hc] at hinv
        rw [decide_eq_true_eq] at hinv
        dsimp only
        rw [decide_eq_true_eq, regCountAux_append]
        simp only [beq_iff_eq]
        by_cases heq : eid = e.event_id
        · rw [if_pos heq]
          have hcap2 : eventCapacity db eid = some cap := by
            unfold eventCapacity
            rw [heq]
            exact hc
          have hlt : (regCount db eid : Int) < cap := by
            unfold check_event_capacity at hcheck
            rw [hcap2] at hcheck
            simp only [decide_eq_true_eq, not_le] at hcheck
            omega
          have hcnt : regCountAux db.eventRegistrations e.event_id
              = regCount db eid := by
            unfold regCount
            rw [heq]
          rw [hcnt] at hinv ⊢
          push_cast
          push_cast at hlt
          omega
        · rw [if_neg heq]
          simpa using hinv
    · exact h

/-- register_event on an event whose registration count has reached its
room's capacity is aborted by the check_event_capacity trigger. -/
theorem register_event_at_capacity (db : DB) (uid eid : Nat) (today : Int)
    (cap : Int) (hcap : eventCapacity db eid = some cap)
    (hcount : (regCount db eid : Int) = cap) :
    register_event db uid eid today = (.capacityExceeded, db) := by
  have hcheck : check_event_capacity db eid = true := by
    unfold check_event_capacity
    rw [hcap]
    simp [hcount]
  unfold register_event
  simp [hcheck]

/-- Claim C2: an event at its room's capacity rejects a further
registration with CapacityExceeded and the state (hence the registration
count) is unchanged, and every domain operation preserves the invariant
that each event's registration count stays within its room's capacity. -/
theorem claim_C2_event_capacity (db : DB) (uid eid : Nat) (today : Int)
    (cap : Int) :
    (eventCapacity db eid = some cap → (regCount db eid : Int) = cap →
      register_event db uid eid today = (.capacityExceeded, db))
    ∧ (capacityInv db →
        (∀ u e : Nat, ∀ t2 : Int, capacityInv (register_event db u e t2).2)
        ∧ (∀ u i : Nat, ∀ t2 : Int, capacityInv (borrow_item db u i t2).2)
        ∧ (∀ tid : Nat, ∀ ret : Int, capacityInv (return_item db tid ret).2)
        ∧ (∀ u : Nat, ∀ title : String, ∀ author : Option String,
            ∀ year : Option Int, ∀ itype cond loc : String, ∀ t2 : Int,
            capacityInv (donate_item db u title author year itype cond
              loc t2).2)
        ∧ (∀ u e : Nat, capacityInv (volunteer_for_library db u e).2)) := by
  constructor
  · intro hcap hcount
    exact register_event_at_capacity db uid eid today cap hcap hcount
  · intro h
    refine ⟨?_, ?_, ?_, ?_, ?_⟩
    · intro u e t2
      exact register_event_preserves db u e t2 h
    · intro u i t2
      have hf := borrow_item_capacity_frame db u i t2
      exact capacityInv_of_eq _ db hf.1 hf.2.1 hf.2.2 h
    · intro tid ret
      have hf := return_item_capacity_frame db tid ret
      exact capacityInv_of_eq _ db hf.1 hf.2.1 hf.2.2 h
    · intro u title author year itype cond loc t2
      have hf := donate_item_capacity_frame db u title author year itype
        cond loc t2
      exact capacityInv_of_eq _ db hf.1 hf.2.1 hf.2.2 h
    · intro u e
      have hf := volunteer_capacity_frame db u e
      exact capacityInv_of_eq _ db hf.1 hf.2.1 hf.2.2 h

theorem claim_C2_witness :
    register_event sampleDB 1 1 7 = (.capacityExceeded, sampleDB)
    ∧ capacityInv (register_event sampleDB 1 1 7).2
    ∧ capacityInv (borrow_item sampleDB 1 1 7).2
    ∧ capacityInv (return_item sampleDB 1 50).2
    ∧ capacityInv (donate_item sampleDB 1 "New Horizons" none none "cd"
        "good" "Donation Desk" 7).2
    ∧ capacityInv (volunteer_for_library sampleDB 3 1).2 := by
  have h := claim_C2_event_capacity sampleDB 1 1 7 1
  have hinv : capacityInv sampleDB := rfl
  refine ⟨h.1 rfl (by decide), (h.2 hinv).1 1 1 7, (h.2 hinv).2.1 1 1 7,
    (h.2 hinv).2.2.1 1 50, (h.2 hinv).2.2.2.1 1 "New Horizons" none none
      "cd" "good" "Donation Desk" 7, (h.2 hinv).2.2.2.2 3 1⟩
